import Mathlib

/-!
Shallow embedding of `src/python/perspective/perspective/core/widget.py`
(the `PerspectiveWidget` Jupyter widget of the Perspective library).

Modelling conventions:
* Python values that travel through the message protocol are modelled by
  `PyVal` (JSON-style values plus `datetime` and plain `date` objects).
  A `datetime` is represented by the pair produced by the code's own
  serialization inputs: `sec = mktime(obj.timetuple())` (an integer number
  of seconds, `mktime`'s fractional part is zero) and `microsecond`.
* Python exceptions are modelled by `Except PyErr`; dictionary access
  `d[k]` is `getItem`, raising `KeyError` on a missing key and `TypeError`
  on a non-dict receiver, exactly as Python does.
* `json.loads` is the Python standard library, not this repository; it is
  passed to `handle_message` as an oracle `loads : String → Except PyErr PyVal`
  (an exception models a `JSONDecodeError`).
* `json.dumps(msg, cls=DateTimeEncoder)` is modelled at the level of the
  value tree: `encode` performs exactly the `DateTimeEncoder` dispatch
  (native JSON types pass through structurally; `datetime` hits the
  `default` hook and becomes an integer; anything else, including a plain
  `date`, falls to `json.JSONEncoder.default`, which raises `TypeError`).
  The final rendering of the encoded tree to a string is the json library's
  and is not modelled.
* The external `perspective.Table` is used by this file only through
  `.columns()`, so a table is modelled by its column list; the
  `PerspectiveManager` registry is an association list keyed by table name
  (`host_table` prepends, so lookup sees the newest binding, matching
  Python dict assignment).
* The fresh name `str(random())` of `load` is an input parameter.
* `str(new_columns) != str(old_columns)` on two sorted lists of strings is
  modelled as list inequality (`repr` is injective on strings, hence `str`
  is injective on lists of strings).
* Side effects (`self.send`, `self.post`, `self.manager.process`) are
  returned as an explicit `Effect` list, in program order.
-/

/-- Python exceptions that the modelled code paths can raise. -/
inductive PyErr where
  | keyError
  | typeError
  | jsonDecodeError
  | attributeError
deriving DecidableEq, Repr

/-- Python values travelling through the widget protocol: JSON-style data
plus `datetime.datetime` (represented by `mktime(obj.timetuple())` seconds
and the microsecond field) and plain `datetime.date` objects. -/
inductive PyVal where
  | none
  | int (n : Int)
  | str (s : String)
  | bool (b : Bool)
  | list (xs : List PyVal)
  | dict (kvs : List (String × PyVal))
  | datetime (sec : Int) (microsecond : Nat)
  | date (y m d : Nat)
deriving Repr

/-- Decidable equality for `PyVal` (manual, because of the nested lists). -/
def PyVal.beq : PyVal → PyVal → Bool
  | .none, .none => true
  | .int a, .int b => a == b
  | .str a, .str b => a == b
  | .bool a, .bool b => a == b
  | .list xs, .list ys => beqList xs ys
  | .dict xs, .dict ys => beqDict xs ys
  | .datetime s₁ u₁, .datetime s₂ u₂ => s₁ == s₂ && u₁ == u₂
  | .date y₁ m₁ d₁, .date y₂ m₂ d₂ => y₁ == y₂ && m₁ == m₂ && d₁ == d₂
  | _, _ => false
where
  beqList : List PyVal → List PyVal → Bool
    | [], [] => true
    | x :: xs, y :: ys => beq x y && beqList xs ys
    | _, _ => false
  beqDict : List (String × PyVal) → List (String × PyVal) → Bool
    | [], [] => true
    | (k₁, v₁) :: xs, (k₂, v₂) :: ys => k₁ == k₂ && beq v₁ v₂ && beqDict xs ys
    | _, _ => false

instance : BEq PyVal := ⟨PyVal.beq⟩

mutual
theorem PyVal.beq_iff : ∀ a b : PyVal, PyVal.beq a b = true ↔ a = b
  | .none, b => by cases b <;> simp [PyVal.beq]
  | .int a, b => by cases b <;> simp [PyVal.beq]
  | .str a, b => by cases b <;> simp [PyVal.beq]
  | .bool a, b => by cases b <;> simp [PyVal.beq]
  | .list xs, b => by
      cases b <;> simp [PyVal.beq]
      exact PyVal.beqList_iff xs _
  | .dict xs, b => by
      cases b <;> simp [PyVal.beq]
      exact PyVal.beqDict_iff xs _
  | .datetime s u, b => by cases b <;> simp [PyVal.beq]
  | .date y m d, b => by cases b <;> simp [PyVal.beq, and_assoc]

theorem PyVal.beqList_iff : ∀ xs ys : List PyVal, PyVal.beq.beqList xs ys = true ↔ xs = ys
  | [], ys => by cases ys <;> simp [PyVal.beq.beqList]
  | x :: xs, ys => by
      cases ys with
      | nil => simp [PyVal.beq.beqList]
      | cons y ys =>
          simp [PyVal.beq.beqList, PyVal.beq_iff x y, PyVal.beqList_iff xs ys]

theorem PyVal.beqDict_iff :
    ∀ xs ys : List (String × PyVal), PyVal.beq.beqDict xs ys = true ↔ xs = ys
  | [], ys => by cases ys <;> simp [PyVal.beq.beqDict]
  | (k, v) :: xs, ys => by
      cases ys with
      | nil => simp [PyVal.beq.beqDict]
      | cons y ys =>
          obtain ⟨k₂, v₂⟩ := y
          simp [PyVal.beq.beqDict, PyVal.beq_iff v v₂, PyVal.beqDict_iff xs ys,
            and_assoc]
end

instance : DecidableEq PyVal := fun a b =>
  decidable_of_iff (PyVal.beq a b = true) (PyVal.beq_iff a b)

/-- Python subscript `v[k]` with a string key: a dict lookup raising
`KeyError` on a missing key, `TypeError` on any non-dict value. -/
def getItem : PyVal → String → Except PyErr PyVal
  | .dict kvs, k =>
      match kvs.lookup k with
      | some v => .ok v
      | Option.none => .error .keyError
  | _, _ => .error .typeError

/-- The integer produced by `DateTimeEncoder.default` on a `datetime`:
`int((mktime(obj.timetuple()) + obj.microsecond / 1000000.0) * 1000)`,
computed exactly: the value is `(sec * 10^6 + microsecond) / 10^3` and
Python `int()` truncates toward zero (`Int.tdiv`). -/
def msOf (sec : Int) (microsecond : Nat) : Int :=
  Int.tdiv (sec * 1000000 + (microsecond : Int)) 1000

mutual
/-- Model of `json.dumps(_, cls=DateTimeEncoder)` on the value tree:
JSON-native values are rendered structurally; a `datetime` is replaced by
`msOf` through the encoder's `default` hook; any other non-native object
(in particular a plain `date`, which fails the `isinstance(obj, datetime)`
test) falls through to `json.JSONEncoder.default`, which raises
`TypeError`. -/
def encode : PyVal → Except PyErr PyVal
  | .none => .ok .none
  | .int n => .ok (.int n)
  | .str s => .ok (.str s)
  | .bool b => .ok (.bool b)
  | .list xs => do .ok (.list (← encodeList xs))
  | .dict kvs => do .ok (.dict (← encodeDict kvs))
  | .datetime sec u => .ok (.int (msOf sec u))
  | .date _ _ _ => .error .typeError

def encodeList : List PyVal → Except PyErr (List PyVal)
  | [] => .ok []
  | x :: xs => do .ok ((← encode x) :: (← encodeList xs))

def encodeDict : List (String × PyVal) → Except PyErr (List (String × PyVal))
  | [] => .ok []
  | (k, v) :: kvs => do .ok ((k, ← encode v) :: (← encodeDict kvs))
end

/-- An observable side effect of the widget code, in program order:
`send m` is `self.send(m)`, `post m` is `self.post(m)`, and `process p` is
`self.manager.process(p, self.post)` (forwarding to the external engine
with the posted reply callback). -/
inductive Effect where
  | send (m : PyVal)
  | post (m : PyVal)
  | process (parsed : PyVal)
deriving DecidableEq, Repr

/-- Model of `PerspectiveWidget.post(msg)`: the wire envelope handed to `self.send`,
`{"id": msg["id"], "type": "cmd", "data": json.dumps(msg, cls=DateTimeEncoder)}`.
`msg["id"]` raises on a malformed message and the encoder raises on
unserializable payloads, exactly as in Python. -/
def post (msg : PyVal) : Except PyErr PyVal := do
  let i ← getItem msg "id"
  let d ← encode msg
  .ok (.dict [("id", i), ("type", .str "cmd"), ("data", d)])

/-- Python's string comparison used by `sorted()`: lexicographic
comparison by code point, i.e. the order on the underlying character
lists. It agrees with Lean's `String` order (`strLe_iff_le`) but, unlike
`String.ltb`, evaluates inside the kernel. -/
def strLe (a b : String) : Prop := a.data ≤ b.data

instance : DecidableRel strLe := fun a b =>
  inferInstanceAs (Decidable (a.data ≤ b.data))

instance : IsTotal String strLe := ⟨fun a b => le_total a.data b.data⟩

instance : IsTrans String strLe := ⟨fun _ _ _ => le_trans⟩

instance : IsAntisymm String strLe :=
  ⟨fun a b h1 h2 => by
    cases a; cases b
    exact congrArg String.mk (le_antisymm h1 h2)⟩

theorem strLe_iff_le (a b : String) : strLe a b ↔ a ≤ b :=
  Iff.symm String.le_iff_toList_le

/-- The mutable widget state of `PerspectiveWidget`: the viewer
configuration traitlets, the bound table name, and the manager's table
registry (each hosted table represented by its column list). -/
structure Widget where
  plugin : String
  columns : List String
  row_pivots : List String
  column_pivots : List String
  aggregates : List (String × String)
  sort : List (List String)
  filters : List PyVal
  plugin_config : PyVal
  dark : Bool
  table_name : Option String
  manager : List (String × List String)
deriving DecidableEq, Repr

/-- The tail of `PerspectiveWidget.load` after the column-difference step:
default empty `columns` to the table's column list, `self.send` the table
announcement `{"id": -2, "type": "table", "data": name}`, and record the
name in `self.table_name`. -/
def load_finish (st : Widget) (tableCols : List String) (name : String) :
    Widget × List Effect :=
  let st := if st.columns.length = 0 then { st with columns := tableCols } else st
  ({ st with table_name := some name },
   [Effect.send (.dict [("id", .int (-2)), ("type", .str "table"),
      ("data", .str name)])])

/-- Model of `PerspectiveWidget.load`: host the table under the fresh `name`; if a
table was already bound, compare the sorted column lists (the code compares
`str(sorted(new)) != str(sorted(old))`) and on a difference reset
`columns`/pivots/`aggregates`/`sort`/`filters`; then run `load_finish`.
The registry lookup of the old name happens after hosting the new table,
as in the source; if the bound name is not in the registry, `get_table`
returns `None` and `.columns()` raises `AttributeError`. -/
def load (st : Widget) (tableCols : List String) (name : String) :
    Except PyErr (Widget × List Effect) :=
  let manager1 := (name, tableCols) :: st.manager
  let st1 := { st with manager := manager1 }
  match st.table_name with
  | Option.none => .ok (load_finish st1 tableCols name)
  | some n =>
      match manager1.lookup n with
      | Option.none => .error .attributeError
      | some oldCols =>
          let old_sorted := List.insertionSort strLe oldCols
          let new_sorted := List.insertionSort strLe tableCols
          let st2 :=
            if new_sorted ≠ old_sorted then
              { st1 with columns := tableCols, row_pivots := [],
                         column_pivots := [], aggregates := [],
                         sort := [], filters := [] }
            else st1
          .ok (load_finish st2 tableCols name)

/-- The `{"id": -1, "data": None}` handshake acknowledgment posted for an
`init` command. -/
def initAck : PyVal := .dict [("id", .int (-1)), ("data", .none)]

/-- The table announcement `{"id": -2, "type": "table", "data": name}`. -/
def tableMsg (name : String) : PyVal :=
  .dict [("id", .int (-2)), ("type", .str "table"), ("data", .str name)]

/-- Model of `PerspectiveWidget.handle_message`: on an envelope whose `"type"` is
`"cmd"`, decode `content["data"]` with `json.loads` (the `loads` oracle),
then dispatch on `parsed["cmd"]`: `"init"` posts the handshake ack;
`"table"` with a bound table sends the table announcement; every other
decoded command, including `"table"` while unbound, is forwarded to
`self.manager.process(parsed, self.post)`. Envelopes of any other `"type"`
fall off the `if` and have no effect; missing keys raise `KeyError`. -/
def handle_message (st : Widget) (content : List (String × PyVal))
    (loads : String → Except PyErr PyVal) : Except PyErr (List Effect) :=
  match content.lookup "type" with
  | Option.none => .error .keyError
  | some t =>
      if t = .str "cmd" then
        match content.lookup "data" with
        | Option.none => .error .keyError
        | some d =>
            match d with
            | .str s =>
                match loads s with
                | .error e => .error e
                | .ok parsed =>
                    match getItem parsed "cmd" with
                    | .error e => .error e
                    | .ok c =>
                        if c = .str "init" then
                          .ok [Effect.post initAck]
                        else if c = .str "table" then
                          match st.table_name with
                          | some n => .ok [Effect.send (tableMsg n)]
                          | Option.none => .ok [Effect.process parsed]
                        else
                          .ok [Effect.process parsed]
            | _ => .error .typeError
      else
        .ok []

/-! ## Helper lemmas -/

theorem load_finish_fst (st : Widget) (cols : List String) (name : String) :
    (load_finish st cols name).1 =
      { (if st.columns.length = 0 then { st with columns := cols } else st) with
          table_name := some name } := rfl

theorem load_finish_row_pivots (st : Widget) (cols : List String) (name : String) :
    (load_finish st cols name).1.row_pivots = st.row_pivots := by
  rw [load_finish_fst]; split <;> rfl

theorem load_finish_column_pivots (st : Widget) (cols : List String) (name : String) :
    (load_finish st cols name).1.column_pivots = st.column_pivots := by
  rw [load_finish_fst]; split <;> rfl

theorem load_finish_aggregates (st : Widget) (cols : List String) (name : String) :
    (load_finish st cols name).1.aggregates = st.aggregates := by
  rw [load_finish_fst]; split <;> rfl

theorem load_finish_sort (st : Widget) (cols : List String) (name : String) :
    (load_finish st cols name).1.sort = st.sort := by
  rw [load_finish_fst]; split <;> rfl

theorem load_finish_filters (st : Widget) (cols : List String) (name : String) :
    (load_finish st cols name).1.filters = st.filters := by
  rw [load_finish_fst]; split <;> rfl

theorem load_finish_plugin (st : Widget) (cols : List String) (name : String) :
    (load_finish st cols name).1.plugin = st.plugin := by
  rw [load_finish_fst]; split <;> rfl

theorem load_finish_plugin_config (st : Widget) (cols : List String) (name : String) :
    (load_finish st cols name).1.plugin_config = st.plugin_config := by
  rw [load_finish_fst]; split <;> rfl

theorem load_finish_dark (st : Widget) (cols : List String) (name : String) :
    (load_finish st cols name).1.dark = st.dark := by
  rw [load_finish_fst]; split <;> rfl

theorem load_finish_table_name (st : Widget) (cols : List String) (name : String) :
    (load_finish st cols name).1.table_name = some name := rfl

/-- Case analysis on a successful `load`: the final state is `load_finish`
applied either to the merely re-hosted state or to the reset state. -/
theorem load_cases (st : Widget) (cols : List String) (name : String)
    (st' : Widget) (effs : List Effect)
    (h : load st cols name = .ok (st', effs)) :
    ∃ stMid : Widget,
      (stMid = { st with manager := (name, cols) :: st.manager } ∨
       stMid = { st with
                  manager := (name, cols) :: st.manager,
                  columns := cols, row_pivots := [], column_pivots := [],
                  aggregates := [], sort := [], filters := [] }) ∧
      st' = (load_finish stMid cols name).1 := by
  obtain ⟨pl, co, rp, cp, ag, so, fi, pc, dk, tn, mg⟩ := st
  cases tn with
  | none =>
      simp only [load] at h
      injection h with h'
      exact ⟨_, Or.inl rfl, (congrArg Prod.fst h').symm⟩
  | some n =>
      simp only [load] at h
      cases hl : List.lookup n ((name, cols) :: mg) with
      | none =>
          simp only [hl] at h
          exact Except.noConfusion h
      | some oldCols =>
          simp only [hl] at h
          split at h
          · injection h with h'
            exact ⟨_, Or.inr rfl, (congrArg Prod.fst h').symm⟩
          · injection h with h'
            exact ⟨_, Or.inl rfl, (congrArg Prod.fst h').symm⟩

theorem load_table_name (st : Widget) (cols : List String) (name : String)
    (st' : Widget) (effs : List Effect)
    (h : load st cols name = .ok (st', effs)) : st'.table_name = some name := by
  obtain ⟨stMid, _, h2⟩ := load_cases st cols name st' effs h
  rw [h2, load_finish_table_name]

/-- Sorting with `insertionSort` maps permuted lists to the same sorted list. -/
theorem insertionSort_eq_of_perm {l l' : List String} (h : l.Perm l') :
    List.insertionSort strLe l = List.insertionSort strLe l' :=
  List.eq_of_perm_of_sorted
    (((List.perm_insertionSort _ l).trans h).trans (List.perm_insertionSort _ l').symm)
    (List.sorted_insertionSort _ l) (List.sorted_insertionSort _ l')

/-! ## Concrete states used by witnesses and counterexamples -/

/-- A freshly constructed widget: default configuration, no bound table. -/
def wSt : Widget :=
  { plugin := "hypergrid", columns := ["a"], row_pivots := [], column_pivots := [],
    aggregates := [], sort := [], filters := [], plugin_config := .dict [],
    dark := false, table_name := Option.none, manager := [] }

/-- The state reached from `wSt` by `load wSt ["a"] "t1"`. -/
def wStLoaded : Widget :=
  { plugin := "hypergrid", columns := ["a"], row_pivots := [], column_pivots := [],
    aggregates := [], sort := [], filters := [], plugin_config := .dict [],
    dark := false, table_name := some "t1", manager := [("t1", ["a"])] }

/-! ## Claim theorems about `handle_message` and the encoder -/

/-- C3: for every inbound envelope of type "cmd" whose decoded command
sub-kind is "init", the widget replies with exactly the handshake
acknowledgment `{id: -1, data: null}`, posted through `self.post`. -/
theorem init_cmd_posts_ack (st : Widget) (content : List (String × PyVal))
    (loads : String → Except PyErr PyVal) (s : String) (parsed : PyVal)
    (htype : content.lookup "type" = some (.str "cmd"))
    (hdata : content.lookup "data" = some (.str s))
    (hloads : loads s = .ok parsed)
    (hcmd : getItem parsed "cmd" = .ok (.str "init")) :
    handle_message st content loads = .ok [Effect.post initAck] := by
  simp [handle_message, htype, hdata, hloads, hcmd]

theorem init_cmd_posts_ack_witness :
    handle_message wSt [("type", PyVal.str "cmd"), ("data", PyVal.str "m")]
      (fun _ => .ok (.dict [("cmd", .str "init")])) = .ok [Effect.post initAck] :=
  init_cmd_posts_ack wSt _ _ "m" (.dict [("cmd", .str "init")]) rfl rfl rfl rfl

/-- C5: after a successful `load` recorded the fresh name, an inbound
"cmd" envelope whose decoded sub-kind is "table" is answered with exactly
`{id: -2, type: "table", data: <name of the most recent load>}`. -/
theorem table_cmd_after_load_announces_binding
    (st st' : Widget) (tableCols : List String) (name : String)
    (effs : List Effect) (content : List (String × PyVal))
    (loads : String → Except PyErr PyVal) (s : String) (parsed : PyVal)
    (hrun : load st tableCols name = .ok (st', effs))
    (htype : content.lookup "type" = some (.str "cmd"))
    (hdata : content.lookup "data" = some (.str s))
    (hloads : loads s = .ok parsed)
    (hcmd : getItem parsed "cmd" = .ok (.str "table")) :
    handle_message st' content loads = .ok [Effect.send (tableMsg name)] := by
  have htn := load_table_name st tableCols name st' effs hrun
  simp [handle_message, htype, hdata, hloads, hcmd, htn]

theorem table_cmd_after_load_announces_binding_witness :
    handle_message wStLoaded [("type", PyVal.str "cmd"), ("data", PyVal.str "m")]
      (fun _ => .ok (.dict [("cmd", .str "table")]))
      = .ok [Effect.send (tableMsg "t1")] :=
  table_cmd_after_load_announces_binding wSt wStLoaded ["a"] "t1"
    [Effect.send (tableMsg "t1")] _ _ "m" (.dict [("cmd", .str "table")])
    rfl rfl rfl rfl rfl

/-- C2 counterexample: with no table bound, a decoded "table" command is
not dropped: the handler forwards it to `self.manager.process`
(`wSt.table_name = none`, so the `elif` guard fails and the request falls
into the generic `else` branch). -/
theorem table_cmd_unbound_not_dropped :
    handle_message wSt [("type", PyVal.str "cmd"), ("data", PyVal.str "m")]
      (fun _ => .ok (.dict [("cmd", .str "table")]))
      = .ok [Effect.process (.dict [("cmd", .str "table")])] ∧
    (Except.ok [Effect.process (.dict [("cmd", .str "table")])]
      : Except PyErr (List Effect)) ≠ .ok [] :=
  ⟨rfl, fun hc => by injection hc with h; exact List.noConfusion h⟩

/-- C2 amended: a "table" command received while no table is bound yields
no direct outbound reply from the handler; instead the decoded command is
forwarded to the manager's `process` entry point (with `self.post` as the
reply callback), like any other non-"init" command. -/
theorem table_cmd_unbound_forwards_to_manager
    (st : Widget) (content : List (String × PyVal))
    (loads : String → Except PyErr PyVal) (s : String) (parsed : PyVal)
    (hunbound : st.table_name = Option.none)
    (htype : content.lookup "type" = some (.str "cmd"))
    (hdata : content.lookup "data" = some (.str s))
    (hloads : loads s = .ok parsed)
    (hcmd : getItem parsed "cmd" = .ok (.str "table")) :
    handle_message st content loads = .ok [Effect.process parsed] := by
  simp [handle_message, htype, hdata, hloads, hcmd, hunbound]

theorem table_cmd_unbound_forwards_to_manager_witness :
    handle_message wSt [("type", PyVal.str "cmd"), ("data", PyVal.str "n")]
      (fun _ => .ok (.dict [("cmd", .str "table"), ("id", .int 3)]))
      = .ok [Effect.process (.dict [("cmd", .str "table"), ("id", .int 3)])] :=
  table_cmd_unbound_forwards_to_manager wSt _ _ "n"
    (.dict [("cmd", .str "table"), ("id", .int 3)]) rfl rfl rfl rfl rfl

/-- C7 counterexample: protocol anomalies are not all silent no-ops. A
"cmd" envelope with the unknown sub-kind "update" is forwarded to the
manager (an effect, not a no-op), and an envelope missing the "type" key
raises `KeyError` instead of never raising. -/
theorem protocol_anomaly_not_noop :
    handle_message wSt [("type", PyVal.str "cmd"), ("data", PyVal.str "m")]
      (fun _ => .ok (.dict [("cmd", .str "update")]))
      = .ok [Effect.process (.dict [("cmd", .str "update")])] ∧
    handle_message wSt [("other", PyVal.int 0)] (fun _ => .ok .none)
      = .error .keyError :=
  ⟨rfl, rfl⟩

/-- C7 amended: (a) an envelope whose "type" value is present but not
"cmd" is silently ignored (no effect, no exception); (b) a decoded
command of unknown sub-kind is not dropped but forwarded to
`manager.process`; (c) an envelope with no "type" key raises `KeyError`
(similarly, missing "data"/"cmd" keys or undecodable data raise). -/
theorem handle_message_leniency :
    (∀ (st : Widget) (content : List (String × PyVal))
       (loads : String → Except PyErr PyVal) (v : PyVal),
       content.lookup "type" = some v → v ≠ .str "cmd" →
       handle_message st content loads = .ok []) ∧
    (∀ (st : Widget) (content : List (String × PyVal))
       (loads : String → Except PyErr PyVal) (s : String) (parsed c : PyVal),
       content.lookup "type" = some (.str "cmd") →
       content.lookup "data" = some (.str s) →
       loads s = .ok parsed → getItem parsed "cmd" = .ok c →
       c ≠ .str "init" → c ≠ .str "table" →
       handle_message st content loads = .ok [Effect.process parsed]) ∧
    (∀ (st : Widget) (content : List (String × PyVal))
       (loads : String → Except PyErr PyVal),
       content.lookup "type" = Option.none →
       handle_message st content loads = .error .keyError) := by
  refine ⟨?_, ?_, ?_⟩
  · intro st content loads v htype hne
    simp [handle_message, htype, hne]
  · intro st content loads s parsed c htype hdata hloads hcmd hne1 hne2
    cases hb : st.table_name <;>
      simp [handle_message, htype, hdata, hloads, hcmd, hne1, hne2, hb]
  · intro st content loads htype
    simp [handle_message, htype]

theorem handle_message_leniency_witness :
    handle_message wSt [("type", PyVal.str "x")] (fun _ => .ok .none) = .ok [] ∧
    handle_message wSt [("type", PyVal.str "cmd"), ("data", PyVal.str "m")]
      (fun _ => .ok (.dict [("cmd", .str "update")]))
      = .ok [Effect.process (.dict [("cmd", .str "update")])] ∧
    handle_message wSt [] (fun _ => .ok .none) = .error .keyError :=
  ⟨handle_message_leniency.1 wSt _ _ (PyVal.str "x") rfl (by decide),
   handle_message_leniency.2.1 wSt _ _ "m" _ (PyVal.str "update")
     rfl rfl rfl rfl (by decide) (by decide),
   handle_message_leniency.2.2 wSt _ _ rfl⟩

/-- C6 (code bug): the encoder serializes `datetime` values as integer
millisecond timestamps, but a plain `date` — which the encoder's own
docstring promises to serialize — fails the `isinstance(obj, datetime)`
test, falls to `json.JSONEncoder.default` and raises `TypeError`, so a
`date` inside a relayed engine response is never serialized at all. The
second conjunct shows the millisecond (not second) encoding on a
`datetime` (mktime seconds 1562880600, microsecond 250000 ↦ 1562880600250). -/
theorem post_date_not_serialized :
    post (.dict [("id", .int 7), ("data", .date 2019 7 11)]) = .error .typeError ∧
    post (.dict [("id", .int 7), ("data", .datetime 1562880600 250000)])
      = .ok (.dict [("id", .int 7), ("type", .str "cmd"),
          ("data", .dict [("id", .int 7), ("data", .int 1562880600250)])]) :=
  ⟨rfl, rfl⟩

/-! ## Claim theorems about `load` -/

/-- C1: with a table already bound (under a different registry name than
the fresh one), loading a table whose column-name set differs resets
row_pivots, column_pivots, aggregates, sort and filters to empty and sets
columns to the new table's column list. -/
theorem load_reset_on_different_columns
    (st : Widget) (tableCols : List String) (name n : String)
    (oldCols : List String) (st' : Widget) (effs : List Effect)
    (hbound : st.table_name = some n)
    (hfresh : name ≠ n)
    (hreg : st.manager.lookup n = some oldCols)
    (hdiff : oldCols.toFinset ≠ tableCols.toFinset)
    (hrun : load st tableCols name = .ok (st', effs)) :
    st'.columns = tableCols ∧ st'.row_pivots = [] ∧ st'.column_pivots = [] ∧
    st'.aggregates = [] ∧ st'.sort = [] ∧ st'.filters = [] := by
  obtain ⟨pl, co, rp, cp, ag, so, fi, pc, dk, tn, mg⟩ := st
  simp only at hbound hreg
  subst hbound
  have hlookup : List.lookup n ((name, tableCols) :: mg) = some oldCols := by
    simp [List.lookup, beq_false_of_ne (Ne.symm hfresh), hreg]
  have hsort : List.insertionSort strLe tableCols ≠
      List.insertionSort strLe oldCols := by
    intro he
    exact hdiff (List.toFinset_eq_of_perm _ _
      ((List.perm_insertionSort _ tableCols).symm.trans
        (he ▸ List.perm_insertionSort _ oldCols))).symm
  simp only [load, hlookup] at hrun
  rw [if_pos hsort] at hrun
  injection hrun with h'
  have hst : st' = (load_finish
      { plugin := pl, columns := tableCols, row_pivots := [], column_pivots := [],
        aggregates := [], sort := [], filters := [], plugin_config := pc,
        dark := dk, table_name := some n,
        manager := (name, tableCols) :: mg } tableCols name).1 :=
    (congrArg Prod.fst h').symm
  rw [hst, load_finish_fst]
  constructor
  · split <;> rfl
  · split <;> exact ⟨rfl, rfl, rfl, rfl, rfl⟩

/-- C4: with a table already bound, loading a table with the identical
column-name set (table column names are distinct, hence the `Nodup`
hypotheses) leaves row_pivots, column_pivots, aggregates, sort and filters
unchanged: the sorted column lists coincide, so no reset fires. -/
theorem load_same_columns_preserves_state
    (st : Widget) (tableCols : List String) (name n : String)
    (oldCols : List String) (st' : Widget) (effs : List Effect)
    (hbound : st.table_name = some n)
    (hfresh : name ≠ n)
    (hreg : st.manager.lookup n = some oldCols)
    (hnd_old : oldCols.Nodup) (hnd_new : tableCols.Nodup)
    (hset : oldCols.toFinset = tableCols.toFinset)
    (hrun : load st tableCols name = .ok (st', effs)) :
    st'.row_pivots = st.row_pivots ∧ st'.column_pivots = st.column_pivots ∧
    st'.aggregates = st.aggregates ∧ st'.sort = st.sort ∧
    st'.filters = st.filters := by
  obtain ⟨pl, co, rp, cp, ag, so, fi, pc, dk, tn, mg⟩ := st
  simp only at hbound hreg
  subst hbound
  have hlookup : List.lookup n ((name, tableCols) :: mg) = some oldCols := by
    simp [List.lookup, beq_false_of_ne (Ne.symm hfresh), hreg]
  have hsort : List.insertionSort strLe tableCols =
      List.insertionSort strLe oldCols :=
    insertionSort_eq_of_perm
      (List.perm_of_nodup_nodup_toFinset_eq hnd_old hnd_new hset).symm
  simp only [load, hlookup] at hrun
  rw [if_neg (not_not_intro hsort)] at hrun
  injection hrun with h'
  have hst : st' = (load_finish
      { plugin := pl, columns := co, row_pivots := rp, column_pivots := cp,
        aggregates := ag, sort := so, filters := fi, plugin_config := pc,
        dark := dk, table_name := some n,
        manager := (name, tableCols) :: mg } tableCols name).1 :=
    (congrArg Prod.fst h').symm
  rw [hst, load_finish_fst]
  split <;> exact ⟨rfl, rfl, rfl, rfl, rfl⟩

/-- C10: the column-difference check is order-insensitive: loading a table
whose column list is a permutation of the bound table's triggers no reset,
and pivots, aggregates, sort and filters are preserved. -/
theorem load_perm_columns_no_reset
    (st : Widget) (tableCols : List String) (name n : String)
    (oldCols : List String) (st' : Widget) (effs : List Effect)
    (hbound : st.table_name = some n)
    (hfresh : name ≠ n)
    (hreg : st.manager.lookup n = some oldCols)
    (hperm : oldCols.Perm tableCols)
    (hrun : load st tableCols name = .ok (st', effs)) :
    st'.row_pivots = st.row_pivots ∧ st'.column_pivots = st.column_pivots ∧
    st'.aggregates = st.aggregates ∧ st'.sort = st.sort ∧
    st'.filters = st.filters := by
  obtain ⟨pl, co, rp, cp, ag, so, fi, pc, dk, tn, mg⟩ := st
  simp only at hbound hreg
  subst hbound
  have hlookup : List.lookup n ((name, tableCols) :: mg) = some oldCols := by
    simp [List.lookup, beq_false_of_ne (Ne.symm hfresh), hreg]
  have hsort : List.insertionSort strLe tableCols =
      List.insertionSort strLe oldCols :=
    insertionSort_eq_of_perm hperm.symm
  simp only [load, hlookup] at hrun
  rw [if_neg (not_not_intro hsort)] at hrun
  injection hrun with h'
  have hst : st' = (load_finish
      { plugin := pl, columns := co, row_pivots := rp, column_pivots := cp,
        aggregates := ag, sort := so, filters := fi, plugin_config := pc,
        dark := dk, table_name := some n,
        manager := (name, tableCols) :: mg } tableCols name).1 :=
    (congrArg Prod.fst h').symm
  rw [hst, load_finish_fst]
  split <;> exact ⟨rfl, rfl, rfl, rfl, rfl⟩

theorem load_finish_columns (st : Widget) (cols : List String) (name : String) :
    (load_finish st cols name).1.columns =
      if st.columns.length = 0 then cols else st.columns := by
  rw [load_finish_fst]
  by_cases hc : st.columns.length = 0 <;> simp [hc]

/-- C8: (a) if the widget's columns are empty when `load` runs, they are
set to the new table's full column list (this covers the defaulting step;
when the reset step fired first, columns are already the new list); (b)
hence after `load` of a table with non-empty columns the widget's columns
are non-empty. -/
theorem load_columns_defaulting :
    (∀ (st : Widget) (cols : List String) (name : String) (st' : Widget)
       (effs : List Effect), st.columns = [] →
       load st cols name = .ok (st', effs) → st'.columns = cols) ∧
    (∀ (st : Widget) (cols : List String) (name : String) (st' : Widget)
       (effs : List Effect), cols ≠ [] →
       load st cols name = .ok (st', effs) → st'.columns ≠ []) := by
  constructor
  · intro st cols name st' effs hco hrun
    obtain ⟨stMid, hMid, hEq⟩ := load_cases st cols name st' effs hrun
    subst hEq
    rw [load_finish_columns]
    rcases hMid with h | h <;> subst h <;> simp [hco]
  · intro st cols name st' effs hcols hrun
    obtain ⟨stMid, hMid, hEq⟩ := load_cases st cols name st' effs hrun
    subst hEq
    rw [load_finish_columns]
    rcases hMid with h | h <;> subst h
    · show (if st.columns.length = 0 then cols else st.columns) ≠ []
      by_cases hc : st.columns.length = 0
      · simpa [hc] using hcols
      · simp only [hc, if_false]
        intro he
        exact hc (by rw [he]; rfl)
    · simpa using hcols

/-- C9: `load` never touches the `plugin`, `plugin_config` or `dark`
fields, whether or not the column-difference reset fires. -/
theorem load_preserves_plugin_config_dark
    (st : Widget) (cols : List String) (name : String)
    (st' : Widget) (effs : List Effect)
    (hrun : load st cols name = .ok (st', effs)) :
    st'.plugin = st.plugin ∧ st'.plugin_config = st.plugin_config ∧
    st'.dark = st.dark := by
  obtain ⟨stMid, hMid, hEq⟩ := load_cases st cols name st' effs hrun
  subst hEq
  rcases hMid with h | h <;> subst h <;>
    exact ⟨load_finish_plugin _ _ _, load_finish_plugin_config _ _ _,
      load_finish_dark _ _ _⟩

/-! ## Witnesses for the `load` claims -/

/-- A widget with table "t1" (columns ["a","b"]) bound and a full viewer
configuration. -/
def w1st : Widget :=
  { plugin := "hypergrid", columns := ["a", "b"], row_pivots := ["a"],
    column_pivots := ["b"], aggregates := [("a", "avg")],
    sort := [["b", "desc"]], filters := [.list [.str "a", .str ">", .int 1]],
    plugin_config := .dict [], dark := false, table_name := some "t1",
    manager := [("t1", ["a", "b"])] }

/-- The state reached from `w1st` by `load w1st ["c"] "t2"` (reset fires). -/
def w1res : Widget :=
  { plugin := "hypergrid", columns := ["c"], row_pivots := [],
    column_pivots := [], aggregates := [], sort := [], filters := [],
    plugin_config := .dict [], dark := false, table_name := some "t2",
    manager := [("t2", ["c"]), ("t1", ["a", "b"])] }

theorem load_reset_on_different_columns_witness :
    w1res.columns = ["c"] ∧ w1res.row_pivots = [] ∧ w1res.column_pivots = [] ∧
    w1res.aggregates = [] ∧ w1res.sort = [] ∧ w1res.filters = [] :=
  load_reset_on_different_columns w1st ["c"] "t2" "t1" ["a", "b"] w1res
    [Effect.send (tableMsg "t2")] rfl (by decide) rfl (by decide) (by rfl)

/-- The state reached from `w1st` by `load w1st ["b", "a"] "t2"`
(same column set, no reset). -/
def w4res : Widget :=
  { plugin := "hypergrid", columns := ["a", "b"], row_pivots := ["a"],
    column_pivots := ["b"], aggregates := [("a", "avg")],
    sort := [["b", "desc"]], filters := [.list [.str "a", .str ">", .int 1]],
    plugin_config := .dict [], dark := false, table_name := some "t2",
    manager := [("t2", ["b", "a"]), ("t1", ["a", "b"])] }

theorem load_same_columns_preserves_state_witness :
    w4res.row_pivots = w1st.row_pivots ∧ w4res.column_pivots = w1st.column_pivots ∧
    w4res.aggregates = w1st.aggregates ∧ w4res.sort = w1st.sort ∧
    w4res.filters = w1st.filters :=
  load_same_columns_preserves_state w1st ["b", "a"] "t2" "t1" ["a", "b"] w4res
    [Effect.send (tableMsg "t2")] rfl (by decide) rfl (by decide) (by decide)
    (by decide) (by rfl)

/-- A widget with table "s1" (columns ["x","y","z"]) bound. -/
def w10st : Widget :=
  { plugin := "d3_xy_scatter", columns := ["x", "y", "z"], row_pivots := ["x"],
    column_pivots := [], aggregates := [("y", "sum")], sort := [["z", "asc"]],
    filters := [], plugin_config := .dict [("zoom", .int 2)], dark := true,
    table_name := some "s1", manager := [("s1", ["x", "y", "z"])] }

/-- The state reached from `w10st` by `load w10st ["z", "x", "y"] "s2"`
(permuted columns, no reset). -/
def w10res : Widget :=
  { plugin := "d3_xy_scatter", columns := ["x", "y", "z"], row_pivots := ["x"],
    column_pivots := [], aggregates := [("y", "sum")], sort := [["z", "asc"]],
    filters := [], plugin_config := .dict [("zoom", .int 2)], dark := true,
    table_name := some "s2",
    manager := [("s2", ["z", "x", "y"]), ("s1", ["x", "y", "z"])] }

theorem load_perm_columns_no_reset_witness :
    w10res.row_pivots = w10st.row_pivots ∧
    w10res.column_pivots = w10st.column_pivots ∧
    w10res.aggregates = w10st.aggregates ∧ w10res.sort = w10st.sort ∧
    w10res.filters = w10st.filters :=
  load_perm_columns_no_reset w10st ["z", "x", "y"] "s2" "s1" ["x", "y", "z"]
    w10res [Effect.send (tableMsg "s2")] rfl (by decide) rfl (by decide) (by rfl)

/-- A fresh widget with an empty `columns` configuration. -/
def w8st : Widget :=
  { plugin := "hypergrid", columns := [], row_pivots := [], column_pivots := [],
    aggregates := [], sort := [], filters := [], plugin_config := .dict [],
    dark := false, table_name := Option.none, manager := [] }

theorem load_columns_defaulting_witness :
    wStLoaded.columns = ["a"] ∧ wStLoaded.columns ≠ [] :=
  ⟨load_columns_defaulting.1 w8st ["a"] "t1" wStLoaded
     [Effect.send (tableMsg "t1")] rfl rfl,
   load_columns_defaulting.2 w8st ["a"] "t1" wStLoaded
     [Effect.send (tableMsg "t1")] (by decide) rfl⟩

theorem load_preserves_plugin_config_dark_witness :
    wStLoaded.plugin = wSt.plugin ∧ wStLoaded.plugin_config = wSt.plugin_config ∧
    wStLoaded.dark = wSt.dark :=
  load_preserves_plugin_config_dark wSt ["a"] "t1" wStLoaded
    [Effect.send (tableMsg "t1")] rfl
